import Mathlib

/-!
Shallow embedding of the OpenMax "Agent Execution Governor" (the Express
server in the repository: `resolveSshConfig`, `quoteForShell`,
`safeJsonParse`, the OPENCLAW_SKILLS registry, `runLocally`, `runOverSsh`,
`shouldRunOpenClawLocally`, and the two execution endpoints
`POST /api/brain/agent` and `POST /api/openclaw/skills/:skillId`).

Modelling conventions:
- JavaScript strings are Lean `String`; a possibly-`undefined` string is
  `Option String` (`none` = `undefined`).
- JavaScript truthiness of strings/JSON values is made explicit through
  the `jsTruthy*` helpers below.
- External effects (database lookup, the two Ollama chat calls, the child
  process spawned by `execFile`) are oracles: their outcomes are inputs to
  the pure handler functions.  The strings sent TO those collaborators
  (prompts) do not influence any control flow and are not modelled.
- `JSON.parse` is modelled by an executable JSON parser (`jsonParse`)
  over the same grammar (object/array/string/number/bool/null with
  standard whitespace, escapes and duplicate-key-overwrites semantics);
  numbers keep their source lexeme.
-/

namespace OpenMax

/-- Single-quote character (code 39). -/
def sq : Char := Char.ofNat 39

/-- Backslash character (code 92). -/
def bsl : Char := Char.ofNat 92

/-- Left curly brace character (code 123). -/
def lbrace : Char := Char.ofNat 123

/-- Right curly brace character (code 125). -/
def rbrace : Char := Char.ofNat 125

/-- JavaScript truthiness of a string: falsy iff empty. -/
def jsTruthyStr (s : String) : Bool := !s.isEmpty

/-- JavaScript truthiness of a possibly-undefined string. -/
def jsTruthyOptStr : Option String → Bool
  | none => false
  | some s => jsTruthyStr s

/-- JavaScript `a || b` for two strings: `b` when `a` is falsy (empty). -/
def jsOrStr (a b : String) : String := if a.isEmpty then b else a

/-- JavaScript `a || b` where `a` may be `undefined` and `b` is a string. -/
def jsOrOptStr (a : Option String) (b : String) : String :=
  match a with
  | none => b
  | some s => jsOrStr s b

/-- JavaScript `flag && x` where `x` may be undefined: falsy when the flag
is false (the resulting value is only ever used for its truthiness or,
when truthy, its string content). -/
def jsAndOpt (flag : Bool) (x : Option String) : Option String :=
  if flag then x else none

/-- JavaScript `String(x)` on a possibly-undefined string. -/
def jsStringOfUndef : Option String → String
  | none => "undefined"
  | some s => s

/-- JSON values as produced by `JSON.parse`.  Numbers keep their source
lexeme (their numeric value never influences the server's control flow). -/
inductive Json where
  | null : Json
  | bool (b : Bool) : Json
  | num (lexeme : String) : Json
  | str (s : String) : Json
  | arr (elems : List Json) : Json
  | obj (fields : List (String × Json)) : Json

/-- Whether a JSON number lexeme denotes zero: its mantissa (everything
before any exponent marker) has no nonzero digit. -/
def numLexIsZero (lex : String) : Bool :=
  (lex.data.takeWhile (fun c => !(c == 'e' || c == 'E'))).all
    (fun c => !c.isDigit || c == '0')

/-- JavaScript truthiness of a JSON value: `null`, `false`, `0` and `""`
are falsy; every object and array is truthy. -/
def Json.truthy : Json → Bool
  | .null => false
  | .bool b => b
  | .num lex => !numLexIsZero lex
  | .str s => !s.isEmpty
  | .arr _ => true
  | .obj _ => true

/-- Property lookup on a parsed JSON value (`v.field` in JavaScript):
`undefined` (`none`) unless the value is an object carrying the field. -/
def Json.getField : Json → String → Option Json
  | .obj fields, k => lookupField fields k
  | _, _ => none
where
  lookupField : List (String × Json) → String → Option Json
    | [], _ => none
    | (k', v) :: rest, k => if k' = k then some v else lookupField rest k

/-- JavaScript truthiness of a possibly-undefined JSON value. -/
def jsTruthyOptJson : Option Json → Bool
  | none => false
  | some v => v.truthy

/-- JavaScript strict equality `x === lit` of a possibly-undefined JSON
value against a string literal. -/
def jsStrictEqStr : Option Json → String → Bool
  | some (.str s), lit => s = lit
  | _, _ => false

/-- JavaScript `x || dflt` on a possibly-undefined JSON value. -/
def jsOrJson (x : Option Json) (dflt : Json) : Json :=
  match x with
  | none => dflt
  | some v => if v.truthy then v else dflt

mutual

/-- JavaScript `String(x)` / template-literal coercion of a JSON value
(object → "[object Object]", array → comma-joined elements). -/
def Json.jsToString : Json → String
  | .null => "null"
  | .bool true => "true"
  | .bool false => "false"
  | .num lex => lex
  | .str s => s
  | .arr xs => Json.jsToStringElems xs
  | .obj _ => "[object Object]"

/-- Array-element coercion used by `Array.prototype.toString`:
`null` becomes the empty string inside an array. -/
def Json.jsToStringElems : List Json → String
  | [] => ""
  | [x] => (match x with | .null => "" | v => Json.jsToString v)
  | x :: y :: rest =>
      (match x with | .null => "" | v => Json.jsToString v) ++ "," ++
        Json.jsToStringElems (y :: rest)

end

/-- JavaScript `String(x)`/template coercion of a possibly-undefined JSON
value (as in `OPENCLAW_SKILLS[skillId]` property-key coercion and the
template literal building the unknown-skill message). -/
def jsToStringOptJson : Option Json → String
  | none => "undefined"
  | some v => v.jsToString

/-- Overwrite-or-append field insertion: `JSON.parse` keeps the first
position of a duplicate key but its last value. -/
def insertField : List (String × Json) → String → Json → List (String × Json)
  | [], k, v => [(k, v)]
  | (k', v') :: rest, k, v =>
      if k' = k then (k', v) :: rest else (k', v') :: insertField rest k v

/-- JSON whitespace. -/
def isJsonWs (c : Char) : Bool :=
  c == ' ' || c == Char.ofNat 9 || c == Char.ofNat 10 || c == Char.ofNat 13

/-- Skip leading JSON whitespace. -/
def skipWs : List Char → List Char
  | [] => []
  | c :: rest => if isJsonWs c then skipWs rest else c :: rest

/-- Value of a hexadecimal digit. -/
def hexVal (c : Char) : Option Nat :=
  if c.isDigit then some (c.toNat - 48)
  else if 'a' ≤ c ∧ c ≤ 'f' then some (c.toNat - 87)
  else if 'A' ≤ c ∧ c ≤ 'F' then some (c.toNat - 55)
  else none

/-- Parse the body of a JSON string literal (after the opening quote),
returning the decoded string and the input following the closing quote.
Handles the JSON escapes and rejects raw control characters. -/
def parseStringBody : List Char → List Char → Option (String × List Char)
  | acc, c :: rest =>
    if c == '"' then some (String.mk acc.reverse, rest)
    else if c == bsl then
      match rest with
      | 'u' :: h1 :: h2 :: h3 :: h4 :: rest' =>
        (match hexVal h1, hexVal h2, hexVal h3, hexVal h4 with
         | some a, some b, some c', some d =>
             parseStringBody (Char.ofNat (((a * 16 + b) * 16 + c') * 16 + d) :: acc) rest'
         | _, _, _, _ => none)
      | e :: rest' =>
        (if e == '"' then parseStringBody ('"' :: acc) rest'
         else if e == bsl then parseStringBody (bsl :: acc) rest'
         else if e == '/' then parseStringBody ('/' :: acc) rest'
         else if e == 'b' then parseStringBody (Char.ofNat 8 :: acc) rest'
         else if e == 'f' then parseStringBody (Char.ofNat 12 :: acc) rest'
         else if e == 'n' then parseStringBody (Char.ofNat 10 :: acc) rest'
         else if e == 'r' then parseStringBody (Char.ofNat 13 :: acc) rest'
         else if e == 't' then parseStringBody (Char.ofNat 9 :: acc) rest'
         else none)
      | [] => none
    else if c.toNat < 32 then none
    else parseStringBody (c :: acc) rest
  | _, [] => none

/-- Split leading decimal digits. -/
def takeDigits (cs : List Char) : List Char × List Char :=
  (cs.takeWhile Char.isDigit, cs.dropWhile Char.isDigit)

/-- Parse a JSON number at the head of the input, returning its lexeme.
Grammar: `-? (0 | [1-9][0-9]*) (\.[0-9]+)? ([eE][+-]?[0-9]+)?`. -/
def parseNumberLex (cs : List Char) : Option (String × List Char) := do
  let (signPart, cs1) :=
    match cs with
    | '-' :: r => (['-'], r)
    | _ => (([] : List Char), cs)
  match cs1 with
  | [] => none
  | c :: rest =>
    let (intPart, cs2) ←
      if c == '0' then some (['0'], rest)
      else if c.isDigit then
        let (ds, r) := takeDigits rest
        some (c :: ds, r)
      else none
    let (fracPart, cs3) ←
      match cs2 with
      | '.' :: r =>
        let (ds, r') := takeDigits r
        if ds.isEmpty then none else some ('.' :: ds, r')
      | _ => some (([] : List Char), cs2)
    let (expPart, cs4) ←
      match cs3 with
      | e :: r =>
        if e == 'e' || e == 'E' then
          let (sgn, r1) :=
            match r with
            | s :: r' => if s == '+' || s == '-' then ([s], r') else (([] : List Char), r)
            | [] => (([] : List Char), r)
          let (ds, r2) := takeDigits r1
          if ds.isEmpty then none else some (e :: (sgn ++ ds), r2)
        else some (([] : List Char), cs3)
      | [] => some (([] : List Char), cs3)
    some (String.mk (signPart ++ intPart ++ fracPart ++ expPart), cs4)

/-- Parsing mode: a full value, the members of an object (after at least
one member is known to follow), or the elements of an array. -/
inductive PMode where
  | value : PMode
  | members (acc : List (String × Json)) : PMode
  | elements (acc : List Json) : PMode

/-- Fuel-indexed recursive JSON parser (the fuel only bounds nesting; the
top level supplies more fuel than any input can consume). -/
def parseJ : Nat → PMode → List Char → Option (Json × List Char)
  | 0, _, _ => none
  | fuel + 1, .value, cs =>
    (match skipWs cs with
     | [] => none
     | c :: rest =>
       if c == lbrace then
         match skipWs rest with
         | d :: rest2 =>
             if d == rbrace then some (Json.obj [], rest2)
             else parseJ fuel (.members []) (d :: rest2)
         | [] => none
       else if c == '[' then
         match skipWs rest with
         | d :: rest2 =>
             if d == ']' then some (Json.arr [], rest2)
             else parseJ fuel (.elements []) (d :: rest2)
         | [] => none
       else if c == '"' then
         match parseStringBody [] rest with
         | some (s, rest2) => some (Json.str s, rest2)
         | none => none
       else if c == 't' then
         (match rest with
          | 'r' :: 'u' :: 'e' :: r2 => some (Json.bool true, r2)
          | _ => none)
       else if c == 'f' then
         (match rest with
          | 'a' :: 'l' :: 's' :: 'e' :: r2 => some (Json.bool false, r2)
          | _ => none)
       else if c == 'n' then
         (match rest with
          | 'u' :: 'l' :: 'l' :: r2 => some (Json.null, r2)
          | _ => none)
       else if c == '-' || c.isDigit then
         match parseNumberLex (c :: rest) with
         | some (lex, rest2) => some (Json.num lex, rest2)
         | none => none
       else none)
  | fuel + 1, .members acc, cs =>
    (match skipWs cs with
     | c :: rest =>
       if c == '"' then
         match parseStringBody [] rest with
         | some (k, rest2) =>
           (match skipWs rest2 with
            | ':' :: rest3 =>
              (match parseJ fuel .value rest3 with
               | some (v, rest4) =>
                 let acc2 := insertField acc k v
                 (match skipWs rest4 with
                  | ',' :: rest5 => parseJ fuel (.members acc2) rest5
                  | d :: rest5 =>
                      if d == rbrace then some (Json.obj acc2, rest5) else none
                  | [] => none)
               | none => none)
            | _ => none)
         | none => none
       else none
     | [] => none)
  | fuel + 1, .elements acc, cs =>
    (match parseJ fuel .value cs with
     | some (v, rest) =>
       (match skipWs rest with
        | ',' :: rest2 => parseJ fuel (.elements (acc ++ [v])) rest2
        | d :: rest2 => if d == ']' then some (Json.arr (acc ++ [v]), rest2) else none
        | [] => none)
     | none => none)

/-- Model of `JSON.parse(s)`: parse one value with surrounding whitespace,
requiring the whole input to be consumed; `none` models the thrown
`SyntaxError`. -/
def jsonParse (s : String) : Option Json :=
  match parseJ (s.data.length + 1) .value s.data with
  | some (v, rest) => if (skipWs rest).isEmpty then some v else none
  | none => none

/-- Model of `String.prototype.indexOf(ch)` (as `none` for `-1`). -/
def indexOfChar : List Char → Char → Option Nat
  | [], _ => none
  | c :: rest, ch =>
    if c == ch then some 0
    else match indexOfChar rest ch with
      | some i => some (i + 1)
      | none => none

/-- Model of `String.prototype.lastIndexOf(ch)` (as `none` for `-1`). -/
def lastIndexOfChar (cs : List Char) (ch : Char) : Option Nat :=
  match indexOfChar cs.reverse ch with
  | some j => some (cs.length - 1 - j)
  | none => none

/-- `text.slice(start, stop + 1)` for in-range indices. -/
def sliceStr (text : String) (start stop : Nat) : String :=
  String.mk ((text.data.drop start).take (stop + 1 - start))

/-- Embedding of `safeJsonParse`: strict `JSON.parse` first; on failure
re-parse the substring from the first brace to the last brace when
`start >= 0 && end > start`; `none` when that also fails. -/
def safeJsonParse (text : String) : Option Json :=
  match jsonParse text with
  | some v => some v
  | none =>
    match indexOfChar text.data lbrace, lastIndexOfChar text.data rbrace with
    | some s, some e =>
        if s < e then jsonParse (sliceStr text s e) else none
    | _, _ => none

/-- Per-character expansion of `value.replace(/'/g, "'\x5c''")`: each
single quote becomes quote-backslash-quote-quote, all else unchanged. -/
def escSingleQuote (c : Char) : List Char :=
  if c == sq then [sq, bsl, sq, sq] else [c]

/-- Embedding of `quoteForShell`: wrap in single quotes after the global
single-quote replacement (the source first applies `String(value)`;
callers below pass the already-coerced string). -/
def quoteForShell (value : String) : String :=
  String.mk ([sq] ++ (value.data.map escSingleQuote).flatten ++ [sq])

/-- A skill of the static registry: display title and shell command body. -/
structure Skill where
  title : String
  command : String
deriving DecidableEq, Repr

/-- The `health-check` skill's command body. -/
def healthCheckCmd : String := "\nset +e\necho \"=== Orbit Doctor ===\"\nif command -v orbit >/dev/null 2>&1; then\n  orbit doctor 2>&1\nelse\n  echo \"orbit command not found\"\nfi\n\necho\necho \"=== Gateway Port (18789) ===\"\nif command -v ss >/dev/null 2>&1; then\n  ss -lntp | grep 18789 || echo \"port 18789 not currently listening\"\nelse\n  netstat -lntp 2>/dev/null | grep 18789 || true\nfi\n\necho\necho \"=== OpenVPN Status ===\"\nif command -v systemctl >/dev/null 2>&1; then\n  systemctl is-active openvpn 2>/dev/null || systemctl is-active openvpn-client@client 2>/dev/null || echo \"openvpn service not active\"\nelse\n  echo \"systemctl not found\"\nfi\n\necho\necho \"=== Repository Status ===\"\nREPO=\"\"\nfor p in /root/openclaw /opt/openclaw /home/openclaw/openclaw; do\n  if [ -d \"$p/.git\" ]; then\n    REPO=\"$p\"\n    break\n  fi\ndone\nif [ -n \"$REPO\" ]; then\n  cd \"$REPO\" && git status -sb\nelse\n  echo \"OpenClaw repository not found in expected paths\"\nfi\n"

/-- The `quick-fix` skill's command body. -/
def quickFixCmd : String := "\nset +e\necho \"=== Orbit Auto Fix ===\"\nif command -v orbit >/dev/null 2>&1; then\n  orbit doctor --fix 2>&1 || orbit doctor --fix --yes 2>&1 || true\n  orbit config set gateway.mode local 2>&1 || true\n  echo\n  orbit doctor 2>&1 || true\nelse\n  echo \"orbit command not found\"\nfi\n"

/-- The `vpn-status` skill's command body. -/
def vpnStatusCmd : String := "\nset +e\necho \"=== VPN Service ===\"\nif command -v systemctl >/dev/null 2>&1; then\n  systemctl status openvpn --no-pager -l 2>&1 || systemctl status openvpn-client@client --no-pager -l 2>&1 || true\nelse\n  echo \"systemctl not found\"\nfi\n\necho\necho \"=== Routes ===\"\nip route 2>&1 || true\n\necho\necho \"=== DNS (/etc/resolv.conf) ===\"\ncat /etc/resolv.conf 2>&1 || true\n"

/-- The `repo-sync` skill's command body. -/
def repoSyncCmd : String := "\nset +e\necho \"=== Repository Sync ===\"\nREPO=\"\"\nfor p in /root/openclaw /opt/openclaw /home/openclaw/openclaw; do\n  if [ -d \"$p/.git\" ]; then\n    REPO=\"$p\"\n    break\n  fi\ndone\nif [ -z \"$REPO\" ]; then\n  echo \"OpenClaw repository not found in expected paths\"\n  exit 1\nfi\n\ncd \"$REPO\"\ngit fetch --all --prune 2>&1\ngit pull --ff-only 2>&1 || git pull 2>&1\necho\ngit log --oneline -n 3 2>&1 || true\n"

/-- The `service-restart` skill's command body. -/
def serviceRestartCmd : String := "\nset +e\necho \"=== Restarting Orbit/OpenClaw Services ===\"\nif command -v orbit >/dev/null 2>&1; then\n  orbit restart 2>&1 || true\nfi\n\nfor svc in openclaw-gateway.service openclaw.service openclaw-gateway openclaw orbit-gateway; do\n  systemctl restart \"$svc\" 2>/dev/null && echo \"restarted: $svc\"\ndone\n\necho\necho \"=== Service Health ===\"\nfor svc in openclaw-gateway.service openclaw.service openclaw-gateway openclaw orbit-gateway; do\n  systemctl is-active \"$svc\" 2>/dev/null && echo \"$svc: active\"\ndone\n"

/-- The OPENCLAW_SKILLS object literal's own properties, in insertion
order. -/
def OPENCLAW_SKILLS : List (String × Skill) :=
  [("health-check", ⟨"System Health Check", healthCheckCmd⟩),
   ("quick-fix", ⟨"Auto Fix Orbit", quickFixCmd⟩),
   ("vpn-status", ⟨"VPN Status", vpnStatusCmd⟩),
   ("repo-sync", ⟨"Sync GitHub Repo", repoSyncCmd⟩),
   ("service-restart", ⟨"Restart Services", serviceRestartCmd⟩)]

/-- Own-property lookup in an association list. -/
def assocGet : List (String × Skill) → String → Option Skill
  | [], _ => none
  | (k, s) :: rest, key => if k = key then some s else assocGet rest key

/-- Property names inherited by every plain object literal from
`Object.prototype` (all bound to truthy values: functions, or the
prototype object itself for `__proto__`). -/
def objectPrototypeProps : List String :=
  ["constructor", "hasOwnProperty", "isPrototypeOf", "propertyIsEnumerable",
   "toLocaleString", "toString", "valueOf", "__defineGetter__",
   "__defineSetter__", "__lookupGetter__", "__lookupSetter__", "__proto__"]

/-- The value of `OPENCLAW_SKILLS[key]` in JavaScript: a registered skill,
or — for the `Object.prototype` property names — an inherited truthy value
whose `title`/`command` properties are `undefined`. -/
inductive RegistryHit where
  | skill (s : Skill) : RegistryHit
  | inherited (name : String) : RegistryHit
deriving DecidableEq, Repr

/-- `OPENCLAW_SKILLS[key]` including the prototype chain; `none` models a
falsy (`undefined`) lookup result. -/
def registryGet (key : String) : Option RegistryHit :=
  match assocGet OPENCLAW_SKILLS key with
  | some s => some (.skill s)
  | none =>
      if objectPrototypeProps.contains key then some (.inherited key) else none

/-- `title` property of a registry hit (`undefined` for inherited values). -/
def RegistryHit.titleOf : RegistryHit → Option String
  | .skill s => some s.title
  | .inherited _ => none

/-- `command` property of a registry hit (`undefined` for inherited
values). -/
def RegistryHit.commandOf : RegistryHit → Option String
  | .skill s => some s.command
  | .inherited _ => none

/-- Server-side configuration derived from the environment. -/
structure ServerConfig where
  /-- `OPENMAX_ALLOW_CLIENT_SSH_CONFIG === 'true'` after default/lowercase. -/
  allowClientSshConfig : Bool
  /-- `(OPENMAX_OPENCLAW_EXECUTION || 'auto').toLowerCase()`. -/
  openclawExecution : String
  /-- `process.env.OPENMAX_VPS_HOST` (`none` = unset). -/
  vpsHost : Option String
  /-- `process.env.OPENMAX_VPS_USER`. -/
  vpsUser : Option String
  /-- `process.env.OPENMAX_VPS_PASSWORD`. -/
  vpsPassword : Option String
  /-- Truthiness of `process.env.OPENMAX_ALLOW_KEY_AUTH`. -/
  allowKeyAuth : Bool
deriving DecidableEq, Repr

/-- The relevant fields of a request body (each possibly absent). -/
structure RequestBody where
  sessionId : Option String
  host : Option String
  user : Option String
  password : Option String
deriving DecidableEq, Repr

/-- The resolved execution target. -/
structure SshConfig where
  host : String
  user : String
  password : String
deriving DecidableEq, Repr

/-- Embedding of `resolveSshConfig(body)`: each field is
`(ALLOW_FLAG && body.field) || env-var || literal-default`. -/
def resolveSshConfig (cfg : ServerConfig) (body : RequestBody) : SshConfig :=
  { host := jsOrOptStr (jsAndOpt cfg.allowClientSshConfig body.host)
      (jsOrOptStr cfg.vpsHost "168.231.78.113"),
    user := jsOrOptStr (jsAndOpt cfg.allowClientSshConfig body.user)
      (jsOrOptStr cfg.vpsUser "root"),
    password := jsOrOptStr (jsAndOpt cfg.allowClientSshConfig body.password)
      (jsOrOptStr cfg.vpsPassword "") }

/-- Embedding of `buildSshArgs`. -/
def buildSshArgs (host user remoteCommand : String) : List String :=
  ["-o", "StrictHostKeyChecking=no",
   "-o", "UserKnownHostsFile=/dev/null",
   "-o", "ConnectTimeout=15",
   user ++ "@" ++ host,
   remoteCommand]

/-- The rejection value of a failed `execFileAsync` call (spawn failure,
non-zero exit, timeout kill, argument-type error, ...): the fields of the
thrown `Error` that the runners read.  `code` is `some n` exactly when
`Number.isInteger(error.code)` holds (string codes such as `ENOENT`,
`null`, and `undefined` are all `none`). -/
structure ExecError where
  stdout : Option String
  stderr : Option String
  message : String
  code : Option Int
deriving DecidableEq, Repr

/-- Outcome of one `execFileAsync` invocation, supplied by the
environment: resolution with `(stdout, stderr)` or rejection. -/
def SpawnOutcome := Except ExecError (String × String)

/-- The normalized result both runners return. -/
structure ExecutionResult where
  success : Bool
  stdout : String
  stderr : String
  exitCode : Int
  error : Option String
deriving DecidableEq, Repr

/-- `Number.isInteger(error.code) ? error.code : 1`. -/
def codeOrOne : Option Int → Int
  | some n => n
  | none => 1

/-- Record of one Command Runner invocation (for counting and inspecting
runner calls; the command is `Option String` because an inherited
registry hit has an `undefined` `command` property). -/
inductive RunnerCall where
  | runLocal (command : Option String) : RunnerCall
  | runSsh (execCommand : String) (execArgs : List String)
      (remoteCommand : String) : RunnerCall
deriving DecidableEq, Repr

/-- Embedding of `runLocally({command})`: the `try` branch normalizes a
resolution, the `catch` branch normalizes any rejection — the function is
total, so no failure propagates past it.  Also records its invocation. -/
def runLocally (command : Option String) (spawn : SpawnOutcome) :
    ExecutionResult × RunnerCall :=
  (match spawn with
   | .ok (out, err) =>
     { success := true, stdout := jsOrStr out "", stderr := jsOrStr err "",
       exitCode := 0, error := none }
   | .error e =>
     { success := false,
       stdout := jsOrOptStr e.stdout "",
       stderr := jsOrOptStr e.stderr (jsOrStr e.message "Unknown local execution error"),
       exitCode := codeOrOne e.code,
       error := some e.message },
   .runLocal command)

/-- The remote command string `runOverSsh` builds:
`bash -lc ${quoteForShell(command)}` (with `quoteForShell`'s own
`String(value)` coercion of an `undefined` command). -/
def remoteCommandFor (command : Option String) : String :=
  "bash -lc " ++ quoteForShell (jsStringOfUndef command)

/-- Embedding of `runOverSsh({host, user, password, command})`: builds the
quoted remote command and the ssh/sshpass invocation, then normalizes the
spawn outcome exactly as `runLocally` does. -/
def runOverSsh (host user password : String) (command : Option String)
    (spawn : SpawnOutcome) : ExecutionResult × RunnerCall :=
  let remoteCommand := remoteCommandFor command
  let baseSshArgs := buildSshArgs host user remoteCommand
  let execCommand := if jsTruthyStr password then "sshpass" else "ssh"
  let execArgs :=
    if jsTruthyStr password then ["-p", password, "ssh"] ++ baseSshArgs
    else baseSshArgs
  (match spawn with
   | .ok (out, err) =>
     { success := true, stdout := jsOrStr out "", stderr := jsOrStr err "",
       exitCode := 0, error := none }
   | .error e =>
     { success := false,
       stdout := jsOrOptStr e.stdout "",
       stderr := jsOrOptStr e.stderr (jsOrStr e.message "Unknown SSH error"),
       exitCode := codeOrOne e.code,
       error := some e.message },
   .runSsh execCommand execArgs remoteCommand)

/-- Embedding of `shouldRunOpenClawLocally(host)` with the configured
execution mode made explicit: `local` → always, `ssh` → never, anything
else (the `auto` default) → exactly on the two loopback spellings. -/
def shouldRunOpenClawLocally (mode host : String) : Bool :=
  if mode = "local" then true
  else if mode = "ssh" then false
  else host == "127.0.0.1" || host == "localhost"

/-- Characters that are not literal when unquoted in a POSIX shell word
(the evaluator below refuses to assign them a meaning). -/
def shellSpecials : List Char :=
  [' ', Char.ofNat 9, Char.ofNat 10, '|', '&', ';', '<', '>', '(', ')',
   '$', Char.ofNat 96, '"', '*', '?', '[', '#', '~']

/-- POSIX evaluation of a single shell word, tracking whether the scanner
is inside single quotes: single quotes toggle and contribute nothing, a
backslash outside quotes escapes the next character, everything inside
single quotes (and every unquoted non-special character) is literal.
`none` = not a single well-defined word. -/
def shEval : Bool → List Char → Option (List Char)
  | true, [] => none
  | true, c :: rest =>
    if c == sq then shEval false rest
    else Option.map (fun t => c :: t) (shEval true rest)
  | false, [] => some []
  | false, c :: rest =>
    if c == sq then shEval true rest
    else if c == bsl then
      match rest with
      | d :: rest2 => Option.map (fun t => d :: t) (shEval false rest2)
      | [] => none
    else if shellSpecials.contains c then none
    else Option.map (fun t => c :: t) (shEval false rest)

/-- The string a POSIX shell evaluates a quoted word to. -/
def shellUnquote (t : String) : Option String :=
  Option.map String.mk (shEval false t.data)

/-- Environment-supplied outcomes of the external calls made by
`POST /api/brain/agent`: the conversation lookup, the decision-stage
`ollamaChat` call (`Except.error` = thrown transport/HTTP failure), the
child-process spawn (consulted only if a runner is invoked), and the
summarization `ollamaChat` call. -/
structure AgentOracle where
  conversationFound : Bool
  decisionCall : Except String String
  spawn : SpawnOutcome
  summaryCall : Except String String

/-- The response of `POST /api/brain/agent`: a 200 with `action:"respond"`,
a 200 with `action:"run_skill"`, a 4xx `{error}` body, or the outer-catch
500 `{error, detail}` body (the `detail` is kept, the constant
`"Failed to process agent request"` text is implicit in the constructor). -/
inductive AgentResult where
  | respondR (assistant : Json) (raw : String) : AgentResult
  | runSkillR (skillId : Option Json) (title : Option String)
      (assistant : String) (tool : ExecutionResult) (host user : String)
      (raw : String) : AgentResult
  | clientError (status : Nat) (msg : String) : AgentResult
  | serverError (detail : String) : AgentResult

/-- Fallback text when the decision output is falsy or unparseable. -/
def noDecisionMsg : String := "I could not decide an action, but I am ready."

/-- The 400 body sent when remote execution lacks a password. -/
def missingPasswordMsg : String :=
  "Missing VPS password. Set OPENMAX_VPS_PASSWORD on the server (recommended), or configure key auth."

/-- `x || null` on the `error` field when shaping the response. -/
def jsOrNull (x : Option String) : Option String :=
  match x with
  | none => none
  | some s => if s.isEmpty then none else some s

/-- Embedding of the `POST /api/brain/agent` handler: validate the
session, run the decision call (a thrown failure lands in the outer
`catch`, i.e. `serverError`), tolerantly parse the decision, branch on its
`action`, look the skill up (through the JavaScript prototype chain),
resolve the target, route local-vs-ssh, execute, summarize with fallback,
and answer.  Returns the response together with the list of Command
Runner invocations performed. -/
def brainAgent (cfg : ServerConfig) (body : RequestBody) (o : AgentOracle) :
    AgentResult × List RunnerCall :=
  if !jsTruthyOptStr body.sessionId then
    (.clientError 400 "sessionId is required", [])
  else if !o.conversationFound then
    (.clientError 404 "Conversation not found", [])
  else
    match o.decisionCall with
    | .error msg => (.serverError msg, [])
    | .ok decisionRaw =>
      match safeJsonParse decisionRaw with
      | none =>
          (.respondR (.str (jsOrStr decisionRaw noDecisionMsg)) decisionRaw, [])
      | some decision =>
        if !decision.truthy || !jsTruthyOptJson (decision.getField "action") then
          (.respondR (.str (jsOrStr decisionRaw noDecisionMsg)) decisionRaw, [])
        else if jsStrictEqStr (decision.getField "action") "respond" then
          (.respondR (jsOrJson (decision.getField "text") (.str "OK.")) decisionRaw, [])
        else if !jsStrictEqStr (decision.getField "action") "run_skill" then
          (.respondR (.str (jsOrStr decisionRaw "OK.")) decisionRaw, [])
        else
          let skillIdJson := decision.getField "skillId"
          match registryGet (jsToStringOptJson skillIdJson) with
          | none =>
              (.clientError 400 ("Unknown skillId: " ++ jsToStringOptJson skillIdJson), [])
          | some skill =>
            let sshConfig := resolveSshConfig cfg body
            let runOpenClawLocally :=
              shouldRunOpenClawLocally cfg.openclawExecution sshConfig.host
            if !runOpenClawLocally && !jsTruthyStr sshConfig.password &&
                !cfg.allowKeyAuth then
              (.clientError 400 missingPasswordMsg, [])
            else
              let er :=
                if runOpenClawLocally then runLocally skill.commandOf o.spawn
                else runOverSsh sshConfig.host sshConfig.user sshConfig.password
                  skill.commandOf o.spawn
              let assistant :=
                match o.summaryCall with
                | .ok s => s
                | .error emsg =>
                    "Executed " ++ jsStringOfUndef skill.titleOf ++ " on " ++
                      sshConfig.host ++ ". (Summary unavailable: " ++
                      jsOrStr emsg "Error" ++ ")"
              (.runSkillR skillIdJson skill.titleOf assistant
                 { er.1 with error := jsOrNull er.1.error }
                 sshConfig.host sshConfig.user decisionRaw, [er.2])

/-- Environment-supplied outcomes of the external calls made by
`POST /api/openclaw/skills/:skillId`. -/
structure SkillsOracle where
  spawn : SpawnOutcome
  summaryCall : Except String String

/-- The success body of `POST /api/openclaw/skills/:skillId` (the
`executedAt` timestamp is not modelled). -/
structure SkillsOk where
  success : Bool
  skillId : String
  title : Option String
  host : String
  user : String
  exitCode : Int
  stdout : String
  stderr : String
  summary : Option String
  error : Option String
deriving DecidableEq, Repr

/-- Response of `POST /api/openclaw/skills/:skillId`. -/
inductive SkillsResult where
  | okR (r : SkillsOk) : SkillsResult
  | clientError (status : Nat) (msg : String) : SkillsResult
deriving DecidableEq, Repr

/-- Embedding of the `POST /api/openclaw/skills/:skillId` handler: look
the skill up, resolve the target, route, execute, then summarize — but
here a summarizer failure sets `summary` to `null`, with no templated
fallback. -/
def skillsEndpoint (cfg : ServerConfig) (skillId : String)
    (body : RequestBody) (o : SkillsOracle) : SkillsResult × List RunnerCall :=
  match registryGet skillId with
  | none => (.clientError 404 ("Unknown skill: " ++ skillId), [])
  | some skill =>
    let sshConfig := resolveSshConfig cfg body
    let runOpenClawLocally :=
      shouldRunOpenClawLocally cfg.openclawExecution sshConfig.host
    if !runOpenClawLocally && !jsTruthyStr sshConfig.password &&
        !cfg.allowKeyAuth then
      (.clientError 400 missingPasswordMsg, [])
    else
      let er :=
        if runOpenClawLocally then runLocally skill.commandOf o.spawn
        else runOverSsh sshConfig.host sshConfig.user sshConfig.password
          skill.commandOf o.spawn
      let summary : Option String :=
        match o.summaryCall with
        | .ok s => some s
        | .error _ => none
      (.okR ⟨er.1.success, skillId, skill.titleOf, sshConfig.host,
         sshConfig.user, er.1.exitCode, er.1.stdout, er.1.stderr, summary,
         jsOrNull er.1.error⟩, [er.2])


/-- The decision-engine raw output fixed by the spec's recovery-parsing
scenario: prose, then a JSON object on its own line, then more prose. -/
def exampleRaw : String :=
  "I" ++ String.mk [sq] ++ "ll just chat.\n\x7b\"action\":\"respond\",\"text\":\"Hi\"\x7d\nthanks"

/-- A well-formed `run_skill` decision output naming the given skill id. -/
def rawRunSkill (id : String) : String :=
  "\x7b\"action\":\"run_skill\",\"skillId\":\"" ++ id ++ "\"\x7d"

/-- A server configuration forcing local execution, with the client
override flag off. -/
def cfgLocal : ServerConfig := ⟨false, "local", some "127.0.0.1", none, none, false⟩

/-- A request body carrying only a session id. -/
def bodySess : RequestBody := ⟨some "sess", none, none, none⟩

/-- A server configuration forcing SSH execution against a remote host,
with a server-side password and the client override flag off. -/
def cfgSsh : ServerConfig := ⟨false, "ssh", some "203.0.113.9", none, some "pw", false⟩

/-- Environmental fact about Node's `execFile`: when the promise rejects
with an integer `code`, that code is the child's nonzero exit status
(rejections never carry integer code 0). -/
def rejectionCodeNonzero : SpawnOutcome → Prop
  | .ok _ => True
  | .error e => match e.code with
    | some n => n ≠ 0
    | none => True

/-- Helper: a JSON value owning a field is an object, hence truthy. -/
theorem getField_some_truthy (d : Json) (k : String) (v : Json)
    (h : d.getField k = some v) : d.truthy = true := by
  cases d with
  | obj fields => rfl
  | null => simp [Json.getField] at h
  | bool b => simp [Json.getField] at h
  | num l => simp [Json.getField] at h
  | str s => simp [Json.getField] at h
  | arr xs => simp [Json.getField] at h

/-- Claim C1: when the server-side allow-client-override flag
(`OPENMAX_ALLOW_CLIENT_SSH_CONFIG`) is disabled, `resolveSshConfig` builds
the execution target entirely from server configuration — for every pair
of request bodies the resolved host/user/password triple is identical,
whatever host/user/password fields the caller supplies. -/
theorem claim1_resolveSshConfig_server_only (cfg : ServerConfig)
    (h : cfg.allowClientSshConfig = false) (b1 b2 : RequestBody) :
    resolveSshConfig cfg b1 = resolveSshConfig cfg b2 := by
  simp [resolveSshConfig, jsAndOpt, h]

/-- Claim C1 witness: with the override flag off, a body carrying a
hostile host/user/password resolves to the same target as an empty
body. -/
theorem claim1_witness :
    resolveSshConfig ⟨false, "auto", some "10.0.0.5", some "admin", some "pw", false⟩
        ⟨some "sess", some "evil.example", some "eve", some "stolen"⟩ =
      resolveSshConfig ⟨false, "auto", some "10.0.0.5", some "admin", some "pw", false⟩
        ⟨none, none, none, none⟩ :=
  claim1_resolveSshConfig_server_only _ rfl _ _

/-- Claim C5: `shouldRunOpenClawLocally` is a pure function of the
configured mode and the host: mode `local` returns true for every host,
mode `ssh` returns false for every host, and mode `auto` returns true
exactly on the loopback spellings the code checks — in particular true
for `127.0.0.1` and false for `203.0.113.9`. -/
theorem claim5_shouldRunLocally_mode_table :
    (∀ host, shouldRunOpenClawLocally "local" host = true) ∧
    (∀ host, shouldRunOpenClawLocally "ssh" host = false) ∧
    (∀ host, shouldRunOpenClawLocally "auto" host =
      (host == "127.0.0.1" || host == "localhost")) ∧
    shouldRunOpenClawLocally "auto" "127.0.0.1" = true ∧
    shouldRunOpenClawLocally "auto" "203.0.113.9" = false := by
  refine ⟨fun host => ?_, fun host => ?_, fun host => ?_, rfl, rfl⟩ <;>
    simp [shouldRunOpenClawLocally]

/-- Claim C6: a rejected spawn (spawn/transport/auth failure or timeout
kill) never propagates past `runLocally`/`runOverSsh`: both runners are
total and map every rejection to a structured result with
`success := false`, `error` set to the failure reason (`error.message`),
and `exitCode` equal to the rejection's code when that code is an integer
and `1` otherwise. -/
theorem claim6_runner_failures_structured (command : Option String)
    (host user password : String) (e : ExecError) :
    (runLocally command (Except.error e)).1 =
      { success := false, stdout := jsOrOptStr e.stdout "",
        stderr := jsOrOptStr e.stderr (jsOrStr e.message "Unknown local execution error"),
        exitCode := codeOrOne e.code, error := some e.message } ∧
    (runOverSsh host user password command (Except.error e)).1 =
      { success := false, stdout := jsOrOptStr e.stdout "",
        stderr := jsOrOptStr e.stderr (jsOrStr e.message "Unknown SSH error"),
        exitCode := codeOrOne e.code, error := some e.message } :=
  ⟨rfl, rfl⟩

/-- Claim C10: every result produced by `runLocally` or `runOverSsh`
satisfies the invariant that `success` holds exactly when `exitCode = 0`,
and the `error` field is set exactly on failure results — under the
environmental fact that a rejected `execFile` promise never carries
integer code 0 (`rejectionCodeNonzero`).  `stdout`/`stderr` are total
`String` fields of `ExecutionResult` (defaulted to `""`, never absent) by
construction of the embedding. -/
theorem claim10_execution_result_invariant (command : Option String)
    (host user password : String) (sp : SpawnOutcome)
    (h : rejectionCodeNonzero sp) :
    ((runLocally command sp).1.success = true ↔
      (runLocally command sp).1.exitCode = 0) ∧
    ((runLocally command sp).1.error.isSome = true ↔
      (runLocally command sp).1.success = false) ∧
    ((runOverSsh host user password command sp).1.success = true ↔
      (runOverSsh host user password command sp).1.exitCode = 0) ∧
    ((runOverSsh host user password command sp).1.error.isSome = true ↔
      (runOverSsh host user password command sp).1.success = false) := by
  cases sp with
  | ok pr =>
    obtain ⟨out, err⟩ := pr
    simp [runLocally, runOverSsh]
  | error e =>
    have h' : (match e.code with | some n => n ≠ 0 | none => True : Prop) := h
    cases hc : e.code with
    | none => simp [runLocally, runOverSsh, codeOrOne, hc]
    | some n =>
      rw [hc] at h'
      have hne : n ≠ 0 := h'
      simp [runLocally, runOverSsh, codeOrOne, hc, hne]

/-- Claim C10 witness: the invariant instantiated at a concrete rejection
with integer exit code 2. -/
theorem claim10_witness :
    rejectionCodeNonzero (Except.error ⟨none, none, "boom", some 2⟩) ∧
    (((runLocally (some "echo hi") (Except.error ⟨none, none, "boom", some 2⟩)).1.success = true ↔
       (runLocally (some "echo hi") (Except.error ⟨none, none, "boom", some 2⟩)).1.exitCode = 0) ∧
     ((runLocally (some "echo hi") (Except.error ⟨none, none, "boom", some 2⟩)).1.error.isSome = true ↔
       (runLocally (some "echo hi") (Except.error ⟨none, none, "boom", some 2⟩)).1.success = false) ∧
     ((runOverSsh "h" "u" "p" (some "echo hi") (Except.error ⟨none, none, "boom", some 2⟩)).1.success = true ↔
       (runOverSsh "h" "u" "p" (some "echo hi") (Except.error ⟨none, none, "boom", some 2⟩)).1.exitCode = 0) ∧
     ((runOverSsh "h" "u" "p" (some "echo hi") (Except.error ⟨none, none, "boom", some 2⟩)).1.error.isSome = true ↔
       (runOverSsh "h" "u" "p" (some "echo hi") (Except.error ⟨none, none, "boom", some 2⟩)).1.success = false)) :=
  ⟨show (2 : Int) ≠ 0 by decide,
   claim10_execution_result_invariant _ "h" "u" "p" _ (show (2 : Int) ≠ 0 by decide)⟩

/-- Claim C2, failing input: the model-chosen skillId `"toString"` is not
in the Skill Registry, yet `OPENCLAW_SKILLS["toString"]` finds the
inherited `Object.prototype.toString` function, which is truthy, so the
unknown-skill 400 branch is skipped: the orchestrator invokes the Command
Runner once (with an `undefined` command) and returns a 200 `run_skill`
response instead of a client error with zero runner invocations. -/
theorem claim2_prototype_skillId_executes :
    registryGet "toString" = some (RegistryHit.inherited "toString") ∧
    brainAgent cfgLocal bodySess
        ⟨true, .ok (rawRunSkill "toString"), .error ⟨none, none, "boom", none⟩, .ok "sum"⟩ =
      (.runSkillR (some (.str "toString")) none "sum"
         ⟨false, "", "boom", 1, some "boom"⟩ "127.0.0.1" "root" (rawRunSkill "toString"),
       [RunnerCall.runLocal none]) :=
  ⟨rfl, rfl⟩

/-- Claim C3 counterexample: for a valid session, when the parsed
decision names the unknown skill `"nope"`, the endpoint responds with a
400 `{error: ...}` body, which carries no `action` field at all — so the
response's `action` is not always `respond` or `run_skill`. -/
theorem claim3_counterexample :
    (brainAgent cfgLocal bodySess
        ⟨true, .ok (rawRunSkill "nope"), .ok ("", ""), .ok "s"⟩).1 =
      .clientError 400 "Unknown skillId: nope" := rfl

/-- Claim C7 counterexample: for a valid session, when the decision-stage
model call fails by transport error, the endpoint returns the outer-catch
500 error response — not a `Respond` decision carrying a degradation
notice. -/
theorem claim7_counterexample :
    brainAgent cfgLocal bodySess
        ⟨true, .error "connect ECONNREFUSED 127.0.0.1:11434", .ok ("", ""), .ok "s"⟩ =
      (.serverError "connect ECONNREFUSED 127.0.0.1:11434", []) := rfl

/-- Claim C7 amended: if the Decision Engine's model call fails by
transport error or timeout, the request is still answered — the endpoint
returns the structured 500 error response carrying the failure detail and
performs zero Command Runner invocations; the degradation-to-`respond`
notice is produced only when the call succeeds but yields no parseable
decision. -/
theorem claim7_amended (cfg : ServerConfig) (body : RequestBody) (o : AgentOracle)
    (m : String) (h1 : jsTruthyOptStr body.sessionId = true)
    (h2 : o.conversationFound = true) (h3 : o.decisionCall = .error m) :
    brainAgent cfg body o = (.serverError m, []) := by
  simp [brainAgent, h1, h2, h3]

/-- Claim C7 witness: the amended claim instantiated at a concrete
timeout failure. -/
theorem claim7_witness :
    jsTruthyOptStr bodySess.sessionId = true ∧
    brainAgent cfgLocal bodySess ⟨true, .error "timeout", .ok ("", ""), .ok "s"⟩ =
      (.serverError "timeout", []) :=
  ⟨rfl, claim7_amended cfgLocal bodySess _ "timeout" rfl rfl rfl⟩

/-- Claim C8 counterexample: in the direct skill-execution endpoint
(`POST /api/openclaw/skills/:skillId`), a summarizer outage after a
completed execution yields `summary = null` — not a non-empty templated
fallback string. -/
theorem claim8_counterexample :
    (skillsEndpoint cfgLocal "health-check" bodySess
        ⟨.ok ("out", ""), .error "endpoint outage"⟩).1 =
      .okR ⟨true, "health-check", some "System Health Check", "127.0.0.1",
        "root", 0, "out", "", none, none⟩ := rfl


/-- One step of the word evaluator: a single quote toggles into quoted
mode. -/
theorem shEval_false_sq (X : List Char) : shEval false (sq :: X) = shEval true X := by
  conv_lhs => rw [shEval.eq_def]
  simp

/-- One step: a single quote inside quotes toggles back out. -/
theorem shEval_true_sq (X : List Char) : shEval true (sq :: X) = shEval false X := by
  conv_lhs => rw [shEval.eq_def]
  simp

/-- One step: an unquoted backslash escapes the next character. -/
theorem shEval_false_esc (d : Char) (X : List Char) :
    shEval false (bsl :: d :: X) = Option.map (fun t => d :: t) (shEval false X) := by
  have h1 : (bsl == sq) = false := by decide
  conv_lhs => rw [shEval.eq_def]
  simp [h1]

/-- One step: any non-quote character inside quotes is literal. -/
theorem shEval_true_cons (c : Char) (hc : (c == sq) = false) (X : List Char) :
    shEval true (c :: X) = Option.map (fun t => c :: t) (shEval true X) := by
  conv_lhs => rw [shEval.eq_def]
  simp [hc]

/-- Helper for the quoting round trip: inside single quotes, the escaped
body followed by a closing quote evaluates to the original characters
prepended to whatever the tail evaluates to. -/
theorem shEval_quoted (cs tail : List Char) :
    shEval true ((cs.map escSingleQuote).flatten ++ sq :: tail) =
      Option.map (fun t => cs ++ t) (shEval false tail) := by
  induction cs with
  | nil => cases h : shEval false tail <;> simp [shEval_true_sq, h]
  | cons c rest ih =>
    by_cases hc : c = sq
    · subst hc
      have hl : ((sq :: rest).map escSingleQuote).flatten ++ sq :: tail =
          sq :: bsl :: sq :: sq :: ((rest.map escSingleQuote).flatten ++ sq :: tail) := by
        simp [escSingleQuote]
      rw [hl, shEval_true_sq, shEval_false_esc, shEval_false_sq, ih]
      cases shEval false tail <;> simp
    · have hc' : (c == sq) = false := by simp [hc]
      have hl : ((c :: rest).map escSingleQuote).flatten ++ sq :: tail =
          c :: ((rest.map escSingleQuote).flatten ++ sq :: tail) := by
        simp [escSingleQuote, hc]
      rw [hl, shEval_true_cons c hc', ih]
      cases shEval false tail <;> simp

/-- Claim C9: `quoteForShell` wraps its argument in single quotes with
each embedded single quote replaced by quote-backslash-quote-quote, and
POSIX word evaluation maps the quoted form back to exactly the original
string; moreover the remote command `runOverSsh` hands to the SSH
transport is always `bash -lc ` followed by `quoteForShell(command)` —
built by this one quoting function, never by unescaped concatenation. -/
theorem claim9_quoteForShell_roundtrip :
    (∀ s : String, shellUnquote (quoteForShell s) = some s) ∧
    (∀ (host user password : String) (command : Option String) (sp : SpawnOutcome),
      (runOverSsh host user password command sp).2 =
        RunnerCall.runSsh
          (if jsTruthyStr password then "sshpass" else "ssh")
          (if jsTruthyStr password then
            ["-p", password, "ssh"] ++ buildSshArgs host user (remoteCommandFor command)
          else buildSshArgs host user (remoteCommandFor command))
          ("bash -lc " ++ quoteForShell (jsStringOfUndef command))) := by
  constructor
  · intro s
    cases s with
    | mk data =>
      show Option.map String.mk
          (shEval false ([sq] ++ (data.map escSingleQuote).flatten ++ [sq])) =
        some (String.mk data)
      have hl : [sq] ++ (data.map escSingleQuote).flatten ++ [sq] =
          sq :: ((data.map escSingleQuote).flatten ++ sq :: []) := by simp
      rw [hl, shEval_false_sq, shEval_quoted data []]
      have hnil : shEval false [] = some [] := by
        conv_lhs => rw [shEval.eq_def]
      simp [hnil]
  · intro host user password command sp
    rfl


/-- Claim C4: `safeJsonParse` first attempts strict JSON parsing; on
failure it re-parses the substring from the first brace to the last
brace; if that is impossible it yields no decision and the agent degrades
to `respond` carrying the raw model output.  In particular, for the raw
output `I'll just chat.\n{"action":"respond","text":"Hi"}\nthanks`,
strict parsing fails and recovery parsing yields the decision
`respond` with text `"Hi"`, which the agent returns. -/
theorem claim4_safeJsonParse_recovery :
    (∀ (t : String) (v : Json), jsonParse t = some v → safeJsonParse t = some v) ∧
    (∀ (t : String) (s e : Nat), jsonParse t = none →
      indexOfChar t.data lbrace = some s → lastIndexOfChar t.data rbrace = some e →
      s < e → safeJsonParse t = jsonParse (sliceStr t s e)) ∧
    (∀ (cfg : ServerConfig) (body : RequestBody) (o : AgentOracle) (raw : String),
      jsTruthyOptStr body.sessionId = true → o.conversationFound = true →
      o.decisionCall = .ok raw → safeJsonParse raw = none →
      brainAgent cfg body o =
        (.respondR (.str (jsOrStr raw noDecisionMsg)) raw, [])) ∧
    (jsonParse exampleRaw = none ∧
     safeJsonParse exampleRaw =
       some (Json.obj [("action", Json.str "respond"), ("text", Json.str "Hi")]) ∧
     ∀ (cfg : ServerConfig) (body : RequestBody) (o : AgentOracle),
       jsTruthyOptStr body.sessionId = true → o.conversationFound = true →
       o.decisionCall = .ok exampleRaw →
       brainAgent cfg body o = (.respondR (.str "Hi") exampleRaw, [])) := by
  refine ⟨?_, ?_, ?_, rfl, rfl, ?_⟩
  · intro t v h
    simp [safeJsonParse, h]
  · intro t s e h1 h2 h3 h4
    simp [safeJsonParse, h1, h2, h3, h4]
  · intro cfg body o raw h1 h2 h3 h4
    obtain ⟨cf, dc, spw, sc⟩ := o
    simp only at h2 h3
    subst h2
    subst h3
    unfold brainAgent
    simp [h1, h4]
  · intro cfg body o h1 h2 h3
    obtain ⟨cf, dc, spw, sc⟩ := o
    simp only at h2 h3
    subst h2
    subst h3
    unfold brainAgent
    have hp : safeJsonParse exampleRaw =
        some (Json.obj [("action", Json.str "respond"), ("text", Json.str "Hi")]) := rfl
    simp [h1, hp]
    rfl

/-- Claim C4 witness: strict-first parsing instantiated on the input
consisting of one empty JSON object. -/
theorem claim4_witness :
    jsonParse "\x7b\x7d" = some (Json.obj []) ∧
    safeJsonParse "\x7b\x7d" = some (Json.obj []) :=
  ⟨rfl, claim4_safeJsonParse_recovery.1 "\x7b\x7d" (Json.obj []) rfl⟩


/-- Claim C3 amended: for every valid session, `POST /api/brain/agent`
never throws — it returns either a success response whose action is
exactly `respond` or `run_skill`, or a structured error response: a 400
client error or the outer-catch 500 (404 is impossible once the session
is found). -/
theorem claim3_amended (cfg : ServerConfig) (body : RequestBody) (o : AgentOracle)
    (h1 : jsTruthyOptStr body.sessionId = true) (h2 : o.conversationFound = true) :
    (∃ a raw, (brainAgent cfg body o).1 = .respondR a raw) ∨
    (∃ sid t a tool ho u raw,
      (brainAgent cfg body o).1 = .runSkillR sid t a tool ho u raw) ∨
    (∃ m, (brainAgent cfg body o).1 = .clientError 400 m) ∨
    (∃ d, (brainAgent cfg body o).1 = .serverError d) := by
  unfold brainAgent
  simp only [h1, h2, Bool.not_true, Bool.false_eq_true, if_false]
  repeat' split
  all_goals first
    | exact Or.inl ⟨_, _, rfl⟩
    | exact Or.inr (Or.inl ⟨_, _, _, _, _, _, _, rfl⟩)
    | exact Or.inr (Or.inr (Or.inl ⟨_, rfl⟩))
    | exact Or.inr (Or.inr (Or.inr ⟨_, rfl⟩))

/-- Claim C3 witness: the amended response taxonomy instantiated at a
concrete valid-session request. -/
theorem claim3_witness :
    jsTruthyOptStr bodySess.sessionId = true ∧
    ((∃ a raw, (brainAgent cfgLocal bodySess
        ⟨true, .ok "hello", .ok ("", ""), .ok "s"⟩).1 = .respondR a raw) ∨
     (∃ sid t a tool ho u raw, (brainAgent cfgLocal bodySess
        ⟨true, .ok "hello", .ok ("", ""), .ok "s"⟩).1 = .runSkillR sid t a tool ho u raw) ∨
     (∃ m, (brainAgent cfgLocal bodySess
        ⟨true, .ok "hello", .ok ("", ""), .ok "s"⟩).1 = .clientError 400 m) ∨
     (∃ d, (brainAgent cfgLocal bodySess
        ⟨true, .ok "hello", .ok ("", ""), .ok "s"⟩).1 = .serverError d)) :=
  ⟨rfl, claim3_amended cfgLocal bodySess _ rfl rfl⟩


/-- Claim C8 amended: in the agent orchestration endpoint
(`POST /api/brain/agent`), whenever a skill execution proceeds — on
either route, local or SSH, i.e. whenever the missing-password gate does
not fire — a failing summarization call still leaves the caller with the
deterministic templated fallback: a non-empty string containing the skill
title and the target host.  (The direct skill endpoint instead returns a
null summary; see the counterexample.) -/
theorem claim8_amended (cfg : ServerConfig) (body : RequestBody) (o : AgentOracle)
    (raw : String) (d : Json) (s : Skill) (emsg : String)
    (h1 : jsTruthyOptStr body.sessionId = true)
    (h2 : o.conversationFound = true)
    (h3 : o.decisionCall = .ok raw)
    (h4 : safeJsonParse raw = some d)
    (h5 : d.getField "action" = some (.str "run_skill"))
    (h6 : registryGet (jsToStringOptJson (d.getField "skillId")) = some (.skill s))
    (h7 : (!shouldRunOpenClawLocally cfg.openclawExecution
        (resolveSshConfig cfg body).host &&
      !jsTruthyStr (resolveSshConfig cfg body).password &&
      !cfg.allowKeyAuth) = false)
    (h8 : o.summaryCall = .error emsg) :
    ((brainAgent cfg body o).1 =
      .runSkillR (d.getField "skillId") (some s.title)
        ("Executed " ++ s.title ++ " on " ++ (resolveSshConfig cfg body).host ++
          ". (Summary unavailable: " ++ jsOrStr emsg "Error" ++ ")")
        { (if shouldRunOpenClawLocally cfg.openclawExecution
              (resolveSshConfig cfg body).host then
            runLocally (some s.command) o.spawn
          else
            runOverSsh (resolveSshConfig cfg body).host
              (resolveSshConfig cfg body).user
              (resolveSshConfig cfg body).password (some s.command) o.spawn).1 with
          error := jsOrNull
            (if shouldRunOpenClawLocally cfg.openclawExecution
                (resolveSshConfig cfg body).host then
              runLocally (some s.command) o.spawn
            else
              runOverSsh (resolveSshConfig cfg body).host
                (resolveSshConfig cfg body).user
                (resolveSshConfig cfg body).password (some s.command) o.spawn).1.error }
        (resolveSshConfig cfg body).host (resolveSshConfig cfg body).user raw) ∧
    ("Executed " ++ s.title ++ " on " ++ (resolveSshConfig cfg body).host ++
        ". (Summary unavailable: " ++ jsOrStr emsg "Error" ++ ")") ≠ "" ∧
    (∃ p q, "Executed " ++ s.title ++ " on " ++ (resolveSshConfig cfg body).host ++
        ". (Summary unavailable: " ++ jsOrStr emsg "Error" ++ ")" = p ++ s.title ++ q) ∧
    (∃ p q, "Executed " ++ s.title ++ " on " ++ (resolveSshConfig cfg body).host ++
        ". (Summary unavailable: " ++ jsOrStr emsg "Error" ++ ")" =
          p ++ (resolveSshConfig cfg body).host ++ q) := by
  obtain ⟨cf, dc, spw, sc⟩ := o
  simp only at h2 h3 h8
  subst h2
  subst h3
  subst h8
  have htr : d.truthy = true := getField_some_truthy d "action" _ h5
  have hA : jsTruthyOptJson (some (Json.str "run_skill")) = true := rfl
  have hB : jsStrictEqStr (some (Json.str "run_skill")) "respond" = false := rfl
  have hC : jsStrictEqStr (some (Json.str "run_skill")) "run_skill" = true := rfl
  refine ⟨?_, ?_, ?_, ?_⟩
  · unfold brainAgent
    simp [h1, h4, h5, htr, hA, hB, hC, h6, h7,
      RegistryHit.titleOf, RegistryHit.commandOf, jsStringOfUndef]
  · have hassoc : "Executed " ++ s.title ++ " on " ++ (resolveSshConfig cfg body).host ++
        ". (Summary unavailable: " ++ jsOrStr emsg "Error" ++ ")" =
        "Executed " ++ (s.title ++ (" on " ++ ((resolveSshConfig cfg body).host ++
          (". (Summary unavailable: " ++ (jsOrStr emsg "Error" ++ ")"))))) := by
      simp [String.append_assoc]
    rw [hassoc]
    intro hemp
    have hlen := congrArg String.length hemp
    rw [String.length_append] at hlen
    have h9 : String.length "Executed " = 9 := rfl
    have h0 : String.length "" = 0 := rfl
    omega
  · exact ⟨"Executed ", " on " ++ ((resolveSshConfig cfg body).host ++
      (". (Summary unavailable: " ++ (jsOrStr emsg "Error" ++ ")"))),
      by simp [String.append_assoc]⟩
  · exact ⟨"Executed " ++ s.title ++ " on ",
      ". (Summary unavailable: " ++ (jsOrStr emsg "Error" ++ ")"),
      by simp [String.append_assoc]⟩

/-- Claim C8 witness: the fallback summary produced over the remote SSH
route, for a concrete `health-check` execution against `203.0.113.9`
whose transport fails and whose summarizer call also fails — the caller
still receives the templated fallback naming the skill title and the
remote host. -/
theorem claim8_witness :
    (brainAgent cfgSsh bodySess
        ⟨true, .ok (rawRunSkill "health-check"),
         .error ⟨none, none, "unreachable", some 255⟩, .error "outage"⟩).1 =
      .runSkillR
        ((Json.obj [("action", Json.str "run_skill"),
            ("skillId", Json.str "health-check")]).getField "skillId")
        (some "System Health Check")
        ("Executed " ++ "System Health Check" ++ " on " ++ "203.0.113.9" ++
          ". (Summary unavailable: " ++ jsOrStr "outage" "Error" ++ ")")
        ⟨false, "", "unreachable", 255, some "unreachable"⟩
        "203.0.113.9" "root" (rawRunSkill "health-check") :=
  (claim8_amended cfgSsh bodySess
    ⟨true, .ok (rawRunSkill "health-check"),
     .error ⟨none, none, "unreachable", some 255⟩, .error "outage"⟩
    (rawRunSkill "health-check")
    (Json.obj [("action", Json.str "run_skill"), ("skillId", Json.str "health-check")])
    ⟨"System Health Check", healthCheckCmd⟩ "outage"
    rfl rfl rfl rfl rfl rfl rfl rfl).1

end OpenMax
